import Mathlib

/-!  Verification of the convert-fgd-dem-cpp elevation-mesh pipeline.

The C++ sources are shallowly embedded: `double` becomes `ℚ` (the claims under
study copy and compare sample values, they do not depend on binary rounding),
`std::vector` becomes `List`, and the `size_t` casts of nonnegative `int`
quantities become `Int.toNat`.  Each definition mirrors one function of the
repository; the theorems settle the specification claims about them.
-/

namespace FgdConverter

/-- No-data sentinel used throughout the pipeline (`-9999.0`). -/
def sentinel : ℚ := -9999

/-- Mirrors `xml::GridEnvelope` (xml_parser header): the inclusive integer
row/column range of a mesh grid.  Field order follows the source
(`low_x, low_y, high_x, high_y`). -/
structure GridEnvelope where
  low_x : Int
  low_y : Int
  high_x : Int
  high_y : Int
deriving Repr, DecidableEq

/-- Mirrors `xml::StartPoint`: the source stores the two components as
`double`; they are truncated to `int` at the use site in
`Dem::get_np_array`. -/
structure StartPoint where
  x : ℚ
  y : ℚ
deriving Repr, DecidableEq

/-- Mirrors `FastFGDParser::ParsedData` (converter.hpp): header fields,
presence flags and the elevation sample stream.  Text fields are lists of
characters. -/
structure ParsedData where
  lower_corner_x : ℚ := 0
  lower_corner_y : ℚ := 0
  upper_corner_x : ℚ := 0
  upper_corner_y : ℚ := 0
  grid_low_x : Int := 0
  grid_low_y : Int := 0
  grid_high_x : Int := 0
  grid_high_y : Int := 0
  start_x : ℚ := 0
  start_y : ℚ := 0
  mesh_code : List Char := []
  dem_type : List Char := []
  elevation_list : List ℚ := []
  has_lower_corner : Bool := false
  has_upper_corner : Bool := false
  has_grid_envelope : Bool := false
  has_start_point : Bool := false
  has_mesh_code : Bool := false
  has_dem_type : Bool := false
  has_tuple_list : Bool := false
deriving Repr, DecidableEq

namespace XmlParser

/-- Mirrors `XmlParser::get_grid_envelope` (xml_parser.cpp): expose the grid
envelope only when its presence flag is set. -/
def get_grid_envelope (d : ParsedData) : Option GridEnvelope :=
  if d.has_grid_envelope then
    some ⟨d.grid_low_x, d.grid_low_y, d.grid_high_x, d.grid_high_y⟩
  else none

/-- Mirrors `XmlParser::get_start_point` (xml_parser.cpp). -/
def get_start_point (d : ParsedData) : Option StartPoint :=
  if d.has_start_point then some ⟨d.start_x, d.start_y⟩ else none

/-- Mirrors `XmlParser::get_tuple_list` (xml_parser.cpp): when present, the
elevation stream is returned as a one-row two-dimensional vector. -/
def get_tuple_list (d : ParsedData) : Option (List (List ℚ)) :=
  if d.has_tuple_list then some [d.elevation_list] else none

end XmlParser

/-- Inner loop of `Dem::get_np_array` (dem.cpp): write samples into one grid
row starting at column `x`, stopping when the row or the sample stream is
exhausted (`for (int x = current_start_x; x < x_length && index < size; ++x)`).
Returns the updated row and the remaining samples. -/
def fillRowFrom (row : List ℚ) (x : Nat) (samples : List ℚ) : List ℚ × List ℚ :=
  match samples with
  | [] => (row, [])
  | v :: rest =>
    if x < row.length then fillRowFrom (row.set x v) (x + 1) rest
    else (row, v :: rest)

/-- Outer loop of `Dem::get_np_array` (dem.cpp): fill successive rows,
starting the first at column `x` and every later row at column 0
(`current_start_x = 0` after the first iteration); the loop stops when the
rows or the samples run out. -/
def fillRows : List (List ℚ) → Nat → List ℚ → List (List ℚ)
  | [], _, _ => []
  | r :: rs, _, [] => r :: rs
  | r :: rs, x, v :: rest =>
    let p := fillRowFrom r x (v :: rest)
    p.1 :: fillRows rs 0 p.2

/-- Truncation of a rational toward zero, the conversion applied by the C++
`double` to `int` casts. -/
def truncQ (q : ℚ) : Int := if q < 0 then -⌊-q⌋ else ⌊q⌋

namespace Dem

/-- Mirrors `Dem::get_np_array` (dem.cpp lines 202-241): build the dense mesh
grid from a parsed document.  A missing tuple list, grid envelope or start
point yields the empty array; otherwise a `y_length x x_length` grid
default-filled with `-9999.0` is filled row-major from the start point.  The
`Int.toNat` conversions stand for the C++ `int` to `size_t` conversions, which
the claims only exercise at nonnegative values. -/
def get_np_array (d : ParsedData) : List (List ℚ) :=
  match XmlParser.get_tuple_list d with
  | none => []
  | some tuple_result =>
    if tuple_result.isEmpty then []
    else
      let elevation := tuple_result.headD []
      match XmlParser.get_grid_envelope d, XmlParser.get_start_point d with
      | some envelope, some start =>
        let x_length : Int := envelope.high_x - envelope.low_x + 1
        let y_length : Int := envelope.high_y - envelope.low_y + 1
        let init := List.replicate y_length.toNat (List.replicate x_length.toNat sentinel)
        let start_x : Int := truncQ start.x
        let start_y : Int := truncQ start.y
        List.take start_y.toNat init ++
          fillRows (List.drop start_y.toNat init) start_x.toNat elevation
      | _, _ => []

end Dem

/-- Sample index consumed before row `y` of the fill loop of
`Dem::get_np_array`, counting from the start row: row 0 starts at column `x`
of a width-`L` row, later rows are full. -/
def rowsConsumed (L x y : Nat) : Nat :=
  if y = 0 then 0 else (L - x) + (y - 1) * L

/-- Cell value demanded by the specification's placement rule for the grid
builder (spec 4.3): cells before the start offset keep the sentinel, the
first filled row starts at column `sx`, every later row at column 0, and each
cell consumes one sample until the stream is exhausted.  This definition
follows the spec's words; the theorems compare it with `Dem.get_np_array`,
which is translated from the source. -/
def specGridCell (xLen sx sy : Nat) (samples : List ℚ) (y x : Nat) : ℚ :=
  if y < sy then sentinel
  else if y = sy then
    if x < sx then sentinel else samples.getD (x - sx) sentinel
  else samples.getD ((xLen - sx) + (y - sy - 1) * xLen + x) sentinel

/-- Mirrors `is_sea_type` (converter.hpp and the fast tuple-list parser): the
two fixed sea tags of the FGD data, "sea surface" and "sea floor". -/
def is_sea_type (type : List Char) : Bool :=
  type == "海水面".data || type == "海水底面".data

/-- Per-record emission of the tuple-list parsers
(`FastFGDParser::parse_tuple_list`, converter.hpp lines 334-398, and
`FastTupleListParser::parse`): `parsed` is the outcome of the numeric-literal
parse of the record's value text (`none` when it fails).  A successfully
parsed sea-tagged value at or below `-9999.0` becomes `0.0` when
`sea_at_zero` is set; a failed parse pushes the sentinel instead of aborting. -/
def emit_tuple_value (sea_at_zero : Bool) (type : List Char) (parsed : Option ℚ) : ℚ :=
  match parsed with
  | some value =>
    if sea_at_zero && decide (value ≤ -9999) && is_sea_type type then 0 else value
  | none => -9999

/-- Record-level view of the tuple-list parse loop: the tokenizer splits the
payload at commas and newlines into records of (survey-type text, numeric
parse outcome); one value is emitted per record. -/
def parse_records (sea_at_zero : Bool) (records : List (List Char × Option ℚ)) : List ℚ :=
  records.map fun r => emit_tuple_value sea_at_zero r.1 r.2

/-- Mirrors `Metadata` (dem.hpp, reconstructed from its uses in
`Dem::format_metadata` and the converter): per-mesh header values.  The
corner fields' `x` component is latitude and `y` is longitude, as in the
source. -/
structure Metadata where
  mesh_code : List Char := []
  lower_corner_x : ℚ := 0
  lower_corner_y : ℚ := 0
  upper_corner_x : ℚ := 0
  upper_corner_y : ℚ := 0
  x_length : Int := 0
  y_length : Int := 0
  start_x : Int := 0
  start_y : Int := 0
  dem_type : List Char := []
deriving Repr, DecidableEq

/-- Mirrors the `BoundsLatLng` aggregate produced by
`Dem::store_bounds_latlng`: global min/max latitude and longitude of a
batch. -/
structure BoundsLatLng where
  min_lat : ℚ := 0
  max_lat : ℚ := 0
  min_lng : ℚ := 0
  max_lng : ℚ := 0
deriving Repr, DecidableEq

/-- Model of C++ `std::round` on exact rationals: nearest integer, halfway
cases away from zero. -/
def cround (q : ℚ) : Int := if q < 0 then -⌊-q + 1 / 2⌋ else ⌊q + 1 / 2⌋

/-- Mirrors `Converter::calc_image_size` (converter.cpp): pixel sizes from
mesh 0's corner span over its grid dimensions, total canvas size from the
global bounds; rounds the absolute value of each quotient.  The `bounds`
argument stands for the `dem_->get_bounds_latlng()` member read. -/
def calc_image_size (meta_data_list : List Metadata) (bounds : BoundsLatLng) : Int × Int :=
  match meta_data_list with
  | [] => (0, 0)
  | m0 :: _ =>
    let pixel_size_x := (m0.upper_corner_y - m0.lower_corner_y) / (m0.x_length : ℚ)
    let pixel_size_y := (m0.lower_corner_x - m0.upper_corner_x) / (m0.y_length : ℚ)
    (cround |(bounds.max_lng - bounds.min_lng) / pixel_size_x|,
      cround |(bounds.max_lat - bounds.min_lat) / pixel_size_y|)

/-- Canvas-size formula exactly as claim C3 words it:
`round(|max − min| / pixel_size)`, the absolute value taken of the coordinate
span only.  This follows the spec text, to be compared against
`calc_image_size`, which is translated from the source. -/
def claimImageSize (meta_data_list : List Metadata) (bounds : BoundsLatLng) : Int × Int :=
  match meta_data_list with
  | [] => (0, 0)
  | m0 :: _ =>
    let pixel_size_x := (m0.upper_corner_y - m0.lower_corner_y) / (m0.x_length : ℚ)
    let pixel_size_y := (m0.lower_corner_x - m0.upper_corner_x) / (m0.y_length : ℚ)
    (cround (|bounds.max_lng - bounds.min_lng| / pixel_size_x),
      cround (|bounds.max_lat - bounds.min_lat| / pixel_size_y))

/-- Canvas allocation of `Converter::combine_meta_data_and_contents`
(converter.cpp): `total_y` rows of `total_x` cells, every cell `-9999.0`. -/
def init_canvas (total_x total_y : Int) : List (List ℚ) :=
  List.replicate total_y.toNat (List.replicate total_x.toNat sentinel)

/-- One row-copy plan of the mosaic assembler's placement loop
(converter.cpp lines 940-961), in the source's mutation order: shift a
negative destination start into the row, clip the copy at the canvas width,
then clip at the available source length. -/
structure RowCopyPlan where
  src_start : Int
  dst_start : Int
  copy_len : Int
deriving Repr, DecidableEq

/-- Mirrors the clip computation of the placement loop. -/
def clip_row_copy (column_start x_len total_x row_len : Int) : RowCopyPlan :=
  let src_start0 : Int := 0
  let dst_start0 := column_start
  let copy_len0 := x_len
  let src_start1 := if dst_start0 < 0 then -dst_start0 else src_start0
  let copy_len1 := if dst_start0 < 0 then copy_len0 + dst_start0 else copy_len0
  let dst_start1 := if dst_start0 < 0 then 0 else dst_start0
  let copy_len2 := if dst_start1 + copy_len1 > total_x then total_x - dst_start1 else copy_len1
  let src_available := row_len - src_start1
  let copy_len3 := if copy_len2 > src_available then src_available else copy_len2
  ⟨src_start1, dst_start1, copy_len3⟩

/-- The guarded `memcpy` of the placement loop: with a positive plan length,
`copy_len` source cells replace the destination cells starting at
`dst_start`; with a non-positive length no write occurs. -/
def apply_row_copy (dst src : List ℚ) (p : RowCopyPlan) : List ℚ :=
  if 0 < p.copy_len then
    (List.range p.copy_len.toNat).foldl
      (fun acc j => acc.set (p.dst_start.toNat + j) (src.getD (p.src_start.toNat + j) 0)) dst
  else dst

/-- One iteration of the per-mesh row loop of
`Converter::combine_meta_data_and_contents`: the destination row
`row_start + y` is skipped when outside `[0, total_y)`, otherwise rewritten
through one clipped row copy. -/
def place_mesh_step (np : List (List ℚ)) (row_start column_start x_len total_x total_y : Int)
    (acc : List (List ℚ)) (y : Nat) : List (List ℚ) :=
  let target_row := row_start + (y : Int)
  if target_row < 0 ∨ target_row ≥ total_y then acc
  else
    let srcRow := np.getD y []
    let p := clip_row_copy column_start x_len total_x (srcRow.length : Int)
    acc.set target_row.toNat (apply_row_copy (acc.getD target_row.toNat []) srcRow p)

/-- The per-mesh row loop: `for (int y = 0; y < y_len && y < np.size(); ++y)`. -/
def place_mesh_rows (canvas : List (List ℚ)) (np : List (List ℚ))
    (row_start column_start x_len y_len total_x total_y : Int) : List (List ℚ) :=
  (List.range (min y_len.toNat np.length)).foldl
    (place_mesh_step np row_start column_start x_len total_x total_y) canvas

/-- Mirrors `Converter::combine_meta_data_and_contents` (converter.cpp lines
899-972): allocate the sentinel canvas sized by `calc_image_size`, then place
every mesh in order; offsets come from mesh 0's pixel sizes and the global
bounds, rounded to pixels. -/
def combine_meta_data_and_contents (meta_data_list : List Metadata)
    (np_array_list : List (List (List ℚ))) (bounds : BoundsLatLng) :
    List (List ℚ) × Int × Int :=
  let ts := calc_image_size meta_data_list bounds
  let total_x := ts.1
  let total_y := ts.2
  let canvas := init_canvas total_x total_y
  match meta_data_list with
  | [] => (canvas, total_x, total_y)
  | m0 :: _ =>
    let pixel_size_x := (m0.upper_corner_y - m0.lower_corner_y) / (m0.x_length : ℚ)
    let pixel_size_y := (m0.lower_corner_x - m0.upper_corner_x) / (m0.y_length : ℚ)
    let final := (List.zip meta_data_list np_array_list).foldl
      (fun acc mi =>
        let metadata := mi.1
        let np := mi.2
        let lat_distance := metadata.lower_corner_x - bounds.min_lat
        let lon_distance := metadata.lower_corner_y - bounds.min_lng
        let x_coordinate := cround (lon_distance / pixel_size_x)
        let y_coordinate := cround (lat_distance / (-pixel_size_y))
        let row_start := total_y - (y_coordinate + metadata.y_length)
        place_mesh_rows acc np row_start x_coordinate metadata.x_length
          metadata.y_length total_x total_y)
      canvas
    (final, total_x, total_y)

/-- Mirrors `GeoTiffData` (geotiff.cpp): a raster as read by `read_geotiff`,
with row-major flat pixel data, dimensions, the exercised geo-transform
entries (`[0]` x origin, `[1]` pixel width, `[3]` y origin, `[5]` negative
pixel height), the EPSG code and the optional no-data marker.  The C++
`nodata_value` is NaN until `has_nodata` is set and is only ever read under
that flag. -/
structure GeoTiffData where
  data : List ℚ := []
  width : Int := 0
  height : Int := 0
  gt0 : ℚ := 0
  gt1 : ℚ := 1
  gt3 : ℚ := 0
  gt5 : ℚ := -1
  epsg : Int := 0
  nodata_value : ℚ := 0
  has_nodata : Bool := false
deriving Repr, DecidableEq

/-- Pixel step of the merge loop of `merge_tif_files` (geotiff.cpp lines
799-812): a source pixel lands at `(dst_row, dst_col)`; inside the canvas it
overwrites the cell only when the source raster has no no-data marker or the
pixel differs from it. -/
def merge_write_pixel (out_data : List ℚ) (out_width out_height : Int)
    (src_has_nodata : Bool) (src_nodata value : ℚ) (dst_row dst_col : Int) : List ℚ :=
  if 0 ≤ dst_row ∧ dst_row < out_height ∧ 0 ≤ dst_col ∧ dst_col < out_width then
    if !src_has_nodata || decide (value ≠ src_nodata) then
      out_data.set (dst_row * out_width + dst_col).toNat value
    else out_data
  else out_data

/-- Placement of one source raster in `merge_tif_files`: every source pixel,
scanned row-major, is pushed through `merge_write_pixel` at its destination
offset. -/
def merge_place_dataset (out_data : List ℚ) (out_width out_height : Int)
    (src : GeoTiffData) (dst_row_start dst_col_start : Int) : List ℚ :=
  (List.range (src.height.toNat * src.width.toNat)).foldl
    (fun acc i =>
      let row := i / src.width.toNat
      let col := i % src.width.toNat
      merge_write_pixel acc out_width out_height src.has_nodata src.nodata_value
        (src.data.getD (row * src.width.toNat + col) 0)
        (dst_row_start + (row : Int)) (dst_col_start + (col : Int)))
    out_data

/-- Bilinear blend with the standard `(1-dx)(1-dy)` weights (geotiff.cpp
lines 628-629). -/
def bilinear (dx dy v00 v01 v10 v11 : ℚ) : ℚ :=
  (1 - dx) * (1 - dy) * v00 + dx * (1 - dy) * v01 +
    (1 - dx) * dy * v10 + dx * dy * v11

/-- Flat row-major pixel fetch, `src.data[row * width + col]`. -/
def pix (src : GeoTiffData) (row col : Int) : ℚ :=
  src.data.getD (row * src.width + col).toNat 0

/-- Fractional source column of a destination pixel center mapped through
the inverse transform (geotiff.cpp lines 593-600). -/
def src_col_f (inv : ℚ × ℚ → ℚ × ℚ) (src : GeoTiffData)
    (dst_min_x dst_max_y dpw dph : ℚ) (dst_row dst_col : Int) : ℚ :=
  let dst_x := dst_min_x + ((dst_col : ℚ) + 1 / 2) * dpw
  let dst_y := dst_max_y - ((dst_row : ℚ) + 1 / 2) * dph
  ((inv (dst_x, dst_y)).1 - src.gt0) / src.gt1 - 1 / 2

/-- Fractional source row of a destination pixel center (geotiff.cpp lines
593-602). -/
def src_row_f (inv : ℚ × ℚ → ℚ × ℚ) (src : GeoTiffData)
    (dst_min_x dst_max_y dpw dph : ℚ) (dst_row dst_col : Int) : ℚ :=
  let dst_x := dst_min_x + ((dst_col : ℚ) + 1 / 2) * dpw
  let dst_y := dst_max_y - ((dst_row : ℚ) + 1 / 2) * dph
  (src.gt3 - (inv (dst_x, dst_y)).2) / (-src.gt5) - 1 / 2

/-- Destination-pixel computation of the reprojection loop of
`GeoTiff::resampling` (geotiff.cpp lines 591-633).  `inv` stands for the
PROJ inverse transform, an external collaborator mapping target coordinates
to source coordinates.  The destination grid is pre-filled with the source's
no-data value; a pixel is recomputed only when the 2 x 2 source neighborhood
lies fully inside the raster and, when a no-data value is declared, none of
the four samples equals it; in every other case the loop's `continue` leaves
the no-data default, which this function returns directly. -/
def resample_pixel (inv : ℚ × ℚ → ℚ × ℚ) (src : GeoTiffData)
    (dst_min_x dst_max_y dst_pixel_width dst_pixel_height : ℚ)
    (dst_row dst_col : Int) : ℚ :=
  let colf := src_col_f inv src dst_min_x dst_max_y dst_pixel_width dst_pixel_height
    dst_row dst_col
  let rowf := src_row_f inv src dst_min_x dst_max_y dst_pixel_width dst_pixel_height
    dst_row dst_col
  let src_col0 := ⌊colf⌋
  let src_row0 := ⌊rowf⌋
  let src_col1 := src_col0 + 1
  let src_row1 := src_row0 + 1
  if 0 ≤ src_col0 ∧ src_col1 < src.width ∧ 0 ≤ src_row0 ∧ src_row1 < src.height then
    let dx := colf - (src_col0 : ℚ)
    let dy := rowf - (src_row0 : ℚ)
    let v00 := pix src src_row0 src_col0
    let v01 := pix src src_row0 src_col1
    let v10 := pix src src_row1 src_col0
    let v11 := pix src src_row1 src_col1
    if src.has_nodata = true ∧
        (v00 = src.nodata_value ∨ v01 = src.nodata_value ∨
          v10 = src.nodata_value ∨ v11 = src.nodata_value) then
      src.nodata_value
    else bilinear dx dy v00 v01 v10 v11
  else src.nodata_value

/-- The whole destination raster of the reprojection loop, row-major: every
pixel is computed independently from the no-data-filled initialization. -/
def resampling_data (inv : ℚ × ℚ → ℚ × ℚ) (src : GeoTiffData)
    (dst_min_x dst_max_y dpw dph : ℚ) (dst_width dst_height : Int) : List ℚ :=
  (List.range (dst_height.toNat * dst_width.toNat)).map fun i =>
    resample_pixel inv src dst_min_x dst_max_y dpw dph
      ((i / dst_width.toNat : Nat) : Int) ((i % dst_width.toNat : Nat) : Int)

/-- Failure kinds of `GeoTiff::resampling`, matching the `std::error_code`
values it assigns (geotiff.cpp lines 456-655). -/
inductive ResampleErr where
  | noSuchFile
  | notEnoughMemory
  | invalidArgument
  | ioError
deriving Repr, DecidableEq

/-- Outcomes of the external steps of `GeoTiff::resampling`: whether the
source raster reads back, whether the PROJ context allocates, whether both
CRS objects are created from their identifier strings, whether the two CRS
are coordinate-equivalent, whether the forward and inverse transformations
are created, and whether the rewritten raster writes to the temporary file.
These stand for the I/O and PROJ collaborators; `result` is the pixel data
of the reprojected raster written on success. -/
structure ResamplingWorld where
  read_ok : Bool
  ctx_ok : Bool
  crs_create_ok : Bool
  crs_equivalent : Bool
  transform_ok : Bool
  inv_transform_ok : Bool
  write_ok : Bool
  result : List ℚ
deriving Repr, DecidableEq

/-- On-disk state seen by `GeoTiff::resampling`: the original output file
and its `.tmp.tif` sibling. -/
structure FileState where
  original : Option (List ℚ)
  temp : Option (List ℚ)
deriving Repr, DecidableEq

/-- Control-flow and file-effect skeleton of `GeoTiff::resampling`
(geotiff.cpp lines 456-655): every failing step returns its error code
before the original file is touched; an equivalent CRS pair is a no-op
success; only after `write_geotiff` succeeds on the temporary path is the
original removed and the temporary renamed over it.  A failed temporary
write leaves at most a partial temporary, never touching the original.
Returns the final file state and `none` for success or the assigned error
code. -/
def resampling_fs (w : ResamplingWorld) (fs : FileState) :
    FileState × Option ResampleErr :=
  if !w.read_ok then (fs, some .noSuchFile)
  else if !w.ctx_ok then (fs, some .notEnoughMemory)
  else if !w.crs_create_ok then (fs, some .invalidArgument)
  else if w.crs_equivalent then (fs, none)
  else if !w.transform_ok then (fs, some .invalidArgument)
  else if !w.inv_transform_ok then (fs, some .invalidArgument)
  else if !w.write_ok then (fs, some .ioError)
  else
    let fs1 : FileState := { fs with temp := some w.result }
    let fs2 : FileState := { fs1 with original := none }
    ({ fs2 with original := fs2.temp, temp := none }, none)

/-- Leading-digit integer parse modelling `std::stoi` as applied to the text
after "EPSG:" (geotiff.cpp line 587): optional leading spaces, an optional
sign, then a maximal non-empty digit run; `none` models the exception thrown
when no digit is found. -/
def stoi (cs : List Char) : Option Int :=
  let cs1 := cs.dropWhile (fun ch => ch = ' ')
  match cs1 with
  | '-' :: rest =>
    let ds := rest.takeWhile Char.isDigit
    if ds.isEmpty then none
    else some (-(ds.foldl (fun acc ch => acc * 10 + (ch.toNat - 48)) 0 : Nat))
  | '+' :: rest =>
    let ds := rest.takeWhile Char.isDigit
    if ds.isEmpty then none
    else some ((ds.foldl (fun acc ch => acc * 10 + (ch.toNat - 48)) 0 : Nat))
  | _ =>
    let ds := cs1.takeWhile Char.isDigit
    if ds.isEmpty then none
    else some ((ds.foldl (fun acc ch => acc * 10 + (ch.toNat - 48)) 0 : Nat))

/-- EPSG-code extraction of `GeoTiff::resampling` (geotiff.cpp lines
584-588): when the accepted target CRS string starts with "EPSG:", the
numeric code after the colon becomes the output's EPSG key (initialized 0
otherwise); `none` models the uncaught `std::stoi` exception. -/
def extract_epsg (dst_crs : List Char) : Option Int :=
  if dst_crs.take 5 = "EPSG:".data then stoi (dst_crs.drop 5) else some 0

/-- Index of the next occurrence of `target` in `l`, counting from `i`
(helper for the `memchr`-based scans). -/
def findCharAux (target : Char) : List Char → Nat → Option Nat
  | [], _ => none
  | ch :: rest, i => if ch = target then some i else findCharAux target rest (i + 1)

/-- Position of the next `target` at or after `i`, or `none`: models
`simd::find_char_avx2`, a `memchr` over the remaining window. -/
def findCharFrom (s : List Char) (target : Char) (i : Nat) : Option Nat :=
  findCharAux target (s.drop i) i

/-- The four whitespace characters skipped by the parser's scans. -/
def isSpaceChar (ch : Char) : Bool :=
  ch = ' ' || ch = '\n' || ch = '\r' || ch = '\t'

def skipWsAux : List Char → Nat → Nat
  | [], i => i
  | ch :: rest, i => if isSpaceChar ch then skipWsAux rest (i + 1) else i

/-- First non-whitespace position at or after `i`: models
`simd::skip_whitespace_avx2` and the parser's manual whitespace loops. -/
def skipWs (s : List Char) (i : Nat) : Nat := skipWsAux (s.drop i) i

/-- Whitespace skip bounded by `bound`: the loops
`while (ptr < content_end && isspace)` between the two numeric fields. -/
def skipWsBounded (s : List Char) (i bound : Nat) : Nat :=
  skipWsAux ((s.take bound).drop i) i

def contentEndAux : List Char → Nat → Nat
  | [], i => i
  | ch :: rest, i => if ch = '<' then i else contentEndAux rest (i + 1)

/-- Position of the next `<` at or after `i`, or the end of the document:
the `while (content_end < end && *content_end != '<')` scans. -/
def contentEnd (s : List Char) (i : Nat) : Nat := contentEndAux (s.drop i) i

def valueEndAux : List Char → Nat → Nat
  | [], i => i
  | ch :: rest, i => if ch = '\n' ∨ ch = '<' then i else valueEndAux rest (i + 1)

/-- End of a tuple-list record's value text: the scan
`while (value_end < end && *value_end != '\n' && *value_end != '<')`. -/
def valueEnd (s : List Char) (i : Nat) : Nat := valueEndAux (s.drop i) i

/-- The character window `[i, j)` of the document. -/
def slice (s : List Char) (i j : Nat) : List Char := (s.drop i).take (j - i)

/-- Mirrors `FastFGDParser::starts_with`: does the document match `pat` at
position `i`? -/
def matchesAt (s : List Char) (i : Nat) (pat : List Char) : Bool :=
  (s.drop i).take pat.length == pat

/-- Mirrors `FastFGDParser::parse_double_pair` (converter.hpp lines
220-267).  `pf` abstracts the platform numeric-literal parser
(`std::from_chars` / `strtod`) on a character window, returning the value
and the number of characters consumed, or `none` on failure.  A failed first
parse leaves both values; a failed second parse leaves only the second; the
returned scan position is always the content end (the next `<` or the end of
the document). -/
def parse_double_pair (pf : List Char → Option (ℚ × Nat)) (s : List Char) (i : Nat)
    (val1 val2 : ℚ) : ℚ × ℚ × Nat :=
  let j := skipWs s i
  let ce := contentEnd s j
  match pf (slice s j ce) with
  | none => (val1, val2, ce)
  | some (v1, used1) =>
    let p := skipWsBounded s (j + used1) ce
    match pf (slice s p ce) with
    | none => (v1, val2, ce)
    | some (v2, _) => (v1, v2, ce)

/-- Mirrors `FastFGDParser::parse_int_pair` (converter.hpp lines 272-301),
with `pint` abstracting `std::from_chars` for `int`. -/
def parse_int_pair (pint : List Char → Option (Int × Nat)) (s : List Char) (i : Nat)
    (val1 val2 : Int) : Int × Int × Nat :=
  let j := skipWs s i
  let ce := contentEnd s j
  match pint (slice s j ce) with
  | none => (val1, val2, ce)
  | some (v1, used1) =>
    let p := skipWsBounded s (j + used1) ce
    match pint (slice s p ce) with
    | none => (v1, val2, ce)
    | some (v2, _) => (v1, v2, ce)

/-- Mirrors `FastFGDParser::parse_simple_text` (converter.hpp lines
306-328): skip leading whitespace, take the text up to the next `<`, trim
trailing whitespace, and return the text with the trimmed end position. -/
def parse_simple_text (s : List Char) (i : Nat) : List Char × Nat :=
  let j := skipWs s i
  let ce := contentEnd s j
  let raw := slice s j ce
  let trimmed := (raw.reverse.dropWhile isSpaceChar).reverse
  (trimmed, j + trimmed.length)

/-- Record loop of `parse_tuple_list` (converter.hpp lines 341-395): stop at
a `<` or when no comma remains; otherwise split the record at the comma,
scan its value up to the newline or `<`, parse it with `pf` and append one
emitted value, then continue past the newline.  Every iteration moves at
least one character forward, so fuel `s.length + 1` runs the loop to
completion. -/
def parse_tuple_list_loop (pf : List Char → Option (ℚ × Nat)) (sea : Bool)
    (s : List Char) : Nat → Nat → List ℚ → List ℚ × Nat
  | 0, i, acc => (acc, i)
  | fuel + 1, i, acc =>
    if s[i]? = none then (acc, i)
    else if s[i]? = some '<' then (acc, i)
    else
      match findCharFrom s ',' i with
      | none => (acc, i)
      | some comma =>
        let type := slice s i comma
        let value_start := comma + 1
        let ve := valueEnd s value_start
        let parsed := (pf (slice s value_start ve)).map Prod.fst
        let acc2 := acc ++ [emit_tuple_value sea type parsed]
        let next := if s[ve]? = some '\n' then ve + 1 else ve
        parse_tuple_list_loop pf sea s fuel next acc2

/-- Mirrors `FastFGDParser::parse_tuple_list` (converter.hpp lines
334-398): skip leading whitespace, then run the record loop, appending onto
the already collected elevation list. -/
def parse_tuple_list (pf : List Char → Option (ℚ × Nat)) (sea : Bool)
    (s : List Char) (i : Nat) (acc : List ℚ) : List ℚ × Nat :=
  parse_tuple_list_loop pf sea s (s.length + 1) (skipWs s i) acc

def lowerCornerTag : List Char := "gml:lowerCorner>".data

def upperCornerTag : List Char := "gml:upperCorner>".data

def gridLowTag : List Char := "gml:low>".data

def gridHighTag : List Char := "gml:high>".data

def startPointTag : List Char := "gml:startPoint>".data

def meshTag : List Char := "mesh>".data

def typeTag : List Char := "type>".data

def tupleListTag : List Char := "gml:tupleList>".data

/-- Main dispatch loop of `FastFGDParser::parse_all` (converter.hpp lines
165-203): find the next `<`, dispatch on the fixed tag set, update the
fields and presence flags, and continue at the position each field parser
returns; after the tuple list, stop early once every header field has been
seen.  The `gml:low` branch, as in the source, sets no flag —
`has_grid_envelope` is set only by `gml:high`.  Every iteration moves past
the `<` it found, so fuel `s.length + 1` runs the scan to completion. -/
def scanTags (pf : List Char → Option (ℚ × Nat)) (pint : List Char → Option (Int × Nat))
    (sea : Bool) (s : List Char) : Nat → Nat → ParsedData → ParsedData
  | 0, _, d => d
  | fuel + 1, i, d =>
    match findCharFrom s '<' i with
    | none => d
    | some j =>
      let k := j + 1
      if matchesAt s k lowerCornerTag then
        let r := parse_double_pair pf s (k + 16) d.lower_corner_x d.lower_corner_y
        scanTags pf pint sea s fuel r.2.2
          { d with lower_corner_x := r.1, lower_corner_y := r.2.1, has_lower_corner := true }
      else if matchesAt s k upperCornerTag then
        let r := parse_double_pair pf s (k + 16) d.upper_corner_x d.upper_corner_y
        scanTags pf pint sea s fuel r.2.2
          { d with upper_corner_x := r.1, upper_corner_y := r.2.1, has_upper_corner := true }
      else if matchesAt s k gridLowTag then
        let r := parse_int_pair pint s (k + 8) d.grid_low_x d.grid_low_y
        scanTags pf pint sea s fuel r.2.2
          { d with grid_low_x := r.1, grid_low_y := r.2.1 }
      else if matchesAt s k gridHighTag then
        let r := parse_int_pair pint s (k + 9) d.grid_high_x d.grid_high_y
        scanTags pf pint sea s fuel r.2.2
          { d with grid_high_x := r.1, grid_high_y := r.2.1, has_grid_envelope := true }
      else if matchesAt s k startPointTag then
        let r := parse_double_pair pf s (k + 15) d.start_x d.start_y
        scanTags pf pint sea s fuel r.2.2
          { d with start_x := r.1, start_y := r.2.1, has_start_point := true }
      else if matchesAt s k meshTag then
        let r := parse_simple_text s (k + 5)
        scanTags pf pint sea s fuel r.2 { d with mesh_code := r.1, has_mesh_code := true }
      else if matchesAt s k typeTag then
        let r := parse_simple_text s (k + 5)
        scanTags pf pint sea s fuel r.2 { d with dem_type := r.1, has_dem_type := true }
      else if matchesAt s k tupleListTag then
        let r := parse_tuple_list pf sea s (k + 14) d.elevation_list
        let d2 := { d with elevation_list := r.1, has_tuple_list := true }
        if d2.has_lower_corner && d2.has_upper_corner && d2.has_grid_envelope &&
            d2.has_start_point then d2
        else scanTags pf pint sea s fuel r.2 d2
      else scanTags pf pint sea s fuel k d

/-- Mirrors `FastFGDParser::parse_all` (converter.hpp lines 150-206): one
scan of the document, returning the populated `ParsedData`.  The source's
single `return data;` makes the optional always engaged; the reserve
estimation preamble only affects allocation and is omitted. -/
def parse_all (pf : List Char → Option (ℚ × Nat)) (pint : List Char → Option (Int × Nat))
    (sea : Bool) (s : List Char) : Option ParsedData :=
  some (scanTags pf pint sea s (s.length + 1) 0 {})

/-- Mirrors `XmlParser::Impl::Impl` (xml_parser.cpp lines 11-20): construct
from `parse_all` with sea-level normalization on, throwing — modelled as
`Except.error` — when the parse returns no value. -/
def xmlParserImpl (pf : List Char → Option (ℚ × Nat))
    (pint : List Char → Option (Int × Nat)) (s : List Char) : Except String ParsedData :=
  match parse_all pf pint true s with
  | some d => Except.ok d
  | none => Except.error "parse failure"

/-- Concrete 2 x 2 source raster for the C5 witness, with unit transforms
and no no-data marker. -/
def c5src : GeoTiffData :=
  { data := [0, 0, 0, 0], width := 2, height := 2 }

/-- Concrete mesh 0 for the C3 counterexample: a one-degree square tile with
a 2 x 2 grid, so the row pitch `pixel_size_y` is negative. -/
def c3m0 : Metadata :=
  { lower_corner_x := 34, lower_corner_y := 135,
    upper_corner_x := 35, upper_corner_y := 136,
    x_length := 2, y_length := 2 }

/-- Global bounds of the single-mesh batch `[c3m0]`. -/
def c3bounds : BoundsLatLng :=
  { min_lat := 34, max_lat := 35, min_lng := 135, max_lng := 136 }

/-- Concrete parsed mesh used to witness the grid-builder claims: a 2 x 2
grid envelope with start point (1, 0) and three samples. -/
def c1pd : ParsedData :=
  { grid_high_x := 1, grid_high_y := 1, start_x := 1, start_y := 0,
    elevation_list := [1, 2, 3],
    has_grid_envelope := true, has_start_point := true, has_tuple_list := true }

/-- Concrete parsed mesh whose sample stream is present but empty, with a
2 x 2 declared grid. -/
def c10pd : ParsedData :=
  { grid_high_x := 1, grid_high_y := 1,
    has_grid_envelope := true, has_start_point := true, has_tuple_list := true }

/-! Theorems.  Everything below proves properties of the definitions above. -/

theorem truncQ_natCast (n : Nat) : truncQ (n : ℚ) = n := by
  rw [truncQ, if_neg (not_lt.mpr (by exact_mod_cast Nat.zero_le n))]
  exact_mod_cast Int.floor_natCast n

theorem fillRowFrom_length (s : List ℚ) : ∀ (row : List ℚ) (x : Nat),
    ((fillRowFrom row x s).1).length = row.length := by
  induction s with
  | nil => intro row x; rfl
  | cons v rest ih =>
    intro row x
    rw [fillRowFrom]
    by_cases hx : x < row.length
    · rw [if_pos hx, ih, List.length_set]
    · rw [if_neg hx]

theorem fillRowFrom_snd (s : List ℚ) : ∀ (row : List ℚ) (x : Nat),
    (fillRowFrom row x s).2 = s.drop (row.length - x) := by
  induction s with
  | nil => intro row x; simp [fillRowFrom]
  | cons v rest ih =>
    intro row x
    rw [fillRowFrom]
    by_cases hx : x < row.length
    · rw [if_pos hx, ih, List.length_set]
      have h1 : row.length - x = (row.length - (x + 1)) + 1 := by omega
      rw [h1, List.drop_succ_cons]
    · rw [if_neg hx]
      have h0 : row.length - x = 0 := by omega
      rw [h0, List.drop_zero]

theorem fillRowFrom_getElem? (s : List ℚ) : ∀ (row : List ℚ) (x i : Nat),
    ((fillRowFrom row x s).1)[i]? =
      if x ≤ i ∧ i - x < s.length ∧ i < row.length then s[i - x]? else row[i]? := by
  induction s with
  | nil =>
    intro row x i
    rw [fillRowFrom, if_neg]
    simp only [List.length_nil]
    omega
  | cons v rest ih =>
    intro row x i
    rw [fillRowFrom]
    by_cases hx : x < row.length
    · rw [if_pos hx, ih, List.length_set]
      by_cases hix : i = x
      · subst hix
        rw [if_neg (by omega), if_pos (by simp only [List.length_cons]; omega),
          List.getElem?_set_self hx]
        simp
      · by_cases hcond : x ≤ i ∧ i - x < rest.length + 1 ∧ i < row.length
        · rw [if_pos (by omega), if_pos (by simp only [List.length_cons]; omega)]
          have h1 : i - x = (i - (x + 1)) + 1 := by omega
          rw [h1, List.getElem?_cons_succ]
        · rw [if_neg (by omega), if_neg (by simp only [List.length_cons]; omega),
            List.getElem?_set_ne (by omega)]
    · rw [if_neg hx, if_neg (by omega)]

theorem fillRows_samples_nil : ∀ (rows : List (List ℚ)) (x : Nat),
    fillRows rows x [] = rows := by
  intro rows x
  cases rows <;> rfl

theorem fillRows_cons (r : List ℚ) (rs : List (List ℚ)) (x : Nat) (s : List ℚ) :
    fillRows (r :: rs) x s =
      (fillRowFrom r x s).1 :: fillRows rs 0 (s.drop (r.length - x)) := by
  cases s with
  | nil => simp [fillRows, fillRowFrom, fillRows_samples_nil]
  | cons v rest =>
    rw [fillRows]
    rw [fillRowFrom_snd]

theorem fillRows_length (s : List ℚ) : ∀ (rows : List (List ℚ)) (x : Nat),
    (fillRows rows x s).length = rows.length := by
  intro rows
  induction rows generalizing s with
  | nil => intro x; rfl
  | cons r rs ih =>
    intro x
    rw [fillRows_cons, List.length_cons, List.length_cons, ih]

theorem fillRows_mem_length (L : Nat) : ∀ (rows : List (List ℚ)) (x : Nat) (s : List ℚ),
    (∀ r ∈ rows, r.length = L) → ∀ r ∈ fillRows rows x s, r.length = L := by
  intro rows
  induction rows with
  | nil => intro x s _ r hr; simp [fillRows] at hr
  | cons r0 rs ih =>
    intro x s hlen r hr
    rw [fillRows_cons] at hr
    rcases List.mem_cons.mp hr with h | h
    · subst h
      rw [fillRowFrom_length]
      exact hlen r0 (List.mem_cons_self _ _)
    · exact ih 0 _ (fun r2 hr2 => hlen r2 (List.mem_cons_of_mem _ hr2)) r h

theorem rowsConsumed_zero_left (L y : Nat) : rowsConsumed L 0 y = y * L := by
  cases y with
  | zero => simp [rowsConsumed]
  | succ y2 => simp [rowsConsumed, Nat.succ_mul, Nat.add_comm]

theorem fillRows_getElem? (L : Nat) : ∀ (rows : List (List ℚ)) (x : Nat) (s : List ℚ) (y : Nat),
    (∀ r ∈ rows, r.length = L) →
    (fillRows rows x s)[y]? =
      (rows[y]?).map
        (fun r => (fillRowFrom r (if y = 0 then x else 0)
          (s.drop (rowsConsumed L x y))).1) := by
  intro rows
  induction rows with
  | nil => intro x s y _; simp [fillRows]
  | cons r rs ih =>
    intro x s y hlen
    rw [fillRows_cons]
    cases y with
    | zero => simp [rowsConsumed]
    | succ y2 =>
      simp only [List.getElem?_cons_succ]
      rw [ih 0 _ y2 (fun r2 hr2 => hlen r2 (List.mem_cons_of_mem _ hr2))]
      have hr : r.length = L := hlen r (List.mem_cons_self _ _)
      have hdrop : (s.drop (r.length - x)).drop (rowsConsumed L 0 y2) =
          s.drop (rowsConsumed L x (y2 + 1)) := by
        rw [List.drop_drop, hr, rowsConsumed_zero_left]
        have hrc : rowsConsumed L x (y2 + 1) = (L - x) + y2 * L := by
          simp only [rowsConsumed, if_neg (Nat.succ_ne_zero y2), Nat.add_sub_cancel]
        rw [hrc]
      rw [hdrop]
      have h1 : (if y2 = 0 then (0 : Nat) else 0) = 0 := ite_self 0
      have h2 : (if y2 + 1 = 0 then x else 0) = 0 := if_neg (Nat.succ_ne_zero y2)
      simp only [h1, h2]

theorem replicate_getD (n i : Nat) (a : ℚ) : (List.replicate n a).getD i a = a := by
  rw [List.getD_eq_getElem?_getD, List.getElem?_replicate]
  split <;> rfl

theorem get_np_array_eq (pd : ParsedData) (xLen yLen sx sy : Nat)
    (ht : pd.has_tuple_list = true) (he : pd.has_grid_envelope = true)
    (hs : pd.has_start_point = true)
    (hx : pd.grid_high_x - pd.grid_low_x + 1 = (xLen : Int))
    (hy : pd.grid_high_y - pd.grid_low_y + 1 = (yLen : Int))
    (hsx : pd.start_x = (sx : ℚ)) (hsy : pd.start_y = (sy : ℚ)) :
    Dem.get_np_array pd =
      List.take sy (List.replicate yLen (List.replicate xLen sentinel)) ++
        fillRows (List.drop sy (List.replicate yLen (List.replicate xLen sentinel)))
          sx pd.elevation_list := by
  rw [Dem.get_np_array, XmlParser.get_tuple_list, XmlParser.get_grid_envelope,
    XmlParser.get_start_point, ht, he, hs]
  simp only [if_true, List.isEmpty_cons, Bool.false_eq_true, if_false, List.headD_cons]
  rw [hx, hy, hsx, hsy]
  simp only [truncQ_natCast, Int.toNat_natCast]

theorem get_np_array_getD (pd : ParsedData) (xLen yLen sx sy : Nat)
    (ht : pd.has_tuple_list = true) (he : pd.has_grid_envelope = true)
    (hs : pd.has_start_point = true)
    (hx : pd.grid_high_x - pd.grid_low_x + 1 = (xLen : Int))
    (hy : pd.grid_high_y - pd.grid_low_y + 1 = (yLen : Int))
    (hsx : pd.start_x = (sx : ℚ)) (hsy : pd.start_y = (sy : ℚ))
    (y x : Nat) (hylt : y < yLen) (hxlt : x < xLen) :
    ((Dem.get_np_array pd).getD y []).getD x sentinel =
      specGridCell xLen sx sy pd.elevation_list y x := by
  rw [get_np_array_eq pd xLen yLen sx sy ht he hs hx hy hsx hsy]
  set s := pd.elevation_list with hsdef
  set srow := List.replicate xLen sentinel with hsrow
  have hsrowlen : srow.length = xLen := List.length_replicate _ _
  have hrowx : srow[x]? = some sentinel := by
    rw [hsrow, List.getElem?_replicate, if_pos hxlt]
  simp only [List.getD_eq_getElem?_getD]
  rw [List.getElem?_append, List.length_take, List.length_replicate]
  by_cases hcase : y < sy ⊓ yLen
  · -- rows before the start row keep the sentinel fill
    rw [if_pos hcase, List.getElem?_take, if_pos (by omega), List.getElem?_replicate,
      if_pos hylt]
    rw [specGridCell, if_pos (by omega)]
    simp only [Option.getD_some]
    rw [hrowx]
    rfl
  · -- rows from the start row onwards are produced by the fill loop
    rw [if_neg hcase]
    have hsy' : sy ≤ y := by omega
    have hmin : sy ⊓ yLen = sy := by omega
    rw [hmin, List.drop_replicate]
    rw [fillRows_getElem? xLen _ _ _ _
      (fun r hr => by rw [List.eq_of_mem_replicate hr]; exact List.length_replicate _ _)]
    rw [List.getElem?_replicate, if_pos (show y - sy < yLen - sy by omega)]
    simp only [Option.map_some', Option.getD_some]
    rw [fillRowFrom_getElem?, hsrowlen]
    by_cases hy0 : y - sy = 0
    · -- the first filled row starts at column sx
      have hy' : y = sy := by omega
      rw [if_pos hy0]
      have hrc : rowsConsumed xLen sx (y - sy) = 0 := by rw [hy0]; rfl
      rw [hrc, List.drop_zero]
      rw [specGridCell, if_neg (show ¬y < sy by omega), if_pos hy']
      by_cases hxsx : x < sx
      · rw [if_neg (show ¬(sx ≤ x ∧ x - sx < s.length ∧ x < xLen) by omega),
          if_pos hxsx, hrowx]
        rfl
      · rw [if_neg hxsx, List.getD_eq_getElem?_getD]
        by_cases hlen : x - sx < s.length
        · rw [if_pos (show sx ≤ x ∧ x - sx < s.length ∧ x < xLen by omega)]
        · rw [if_neg (show ¬(sx ≤ x ∧ x - sx < s.length ∧ x < xLen) by omega),
            List.getElem?_eq_none (show s.length ≤ x - sx by omega), hrowx]
          rfl
    · -- later rows start at column 0 and continue consuming the stream
      rw [if_neg hy0]
      set k := (xLen - sx) + (y - sy - 1) * xLen with hk
      have hrc : rowsConsumed xLen sx (y - sy) = k := by
        rw [rowsConsumed, if_neg hy0]
      rw [hrc]
      rw [specGridCell, if_neg (show ¬y < sy by omega), if_neg (show ¬y = sy by omega),
        List.getD_eq_getElem?_getD, ← hk]
      by_cases hlen : k + x < s.length
      · rw [if_pos (show 0 ≤ x ∧ x - 0 < (s.drop k).length ∧ x < xLen by
            refine ⟨Nat.zero_le x, ?_, hxlt⟩; rw [List.length_drop]; omega)]
        simp only [Nat.sub_zero]
        rw [List.getElem?_drop]
      · rw [if_neg (show ¬(0 ≤ x ∧ x - 0 < (s.drop k).length ∧ x < xLen) by
            rw [List.length_drop]; omega),
          List.getElem?_eq_none (show s.length ≤ k + x by omega), hrowx]
        rfl

theorem get_np_array_length (pd : ParsedData) (xLen yLen sx sy : Nat)
    (ht : pd.has_tuple_list = true) (he : pd.has_grid_envelope = true)
    (hs : pd.has_start_point = true)
    (hx : pd.grid_high_x - pd.grid_low_x + 1 = (xLen : Int))
    (hy : pd.grid_high_y - pd.grid_low_y + 1 = (yLen : Int))
    (hsx : pd.start_x = (sx : ℚ)) (hsy : pd.start_y = (sy : ℚ)) :
    (Dem.get_np_array pd).length = yLen ∧
      ∀ r ∈ Dem.get_np_array pd, r.length = xLen := by
  rw [get_np_array_eq pd xLen yLen sx sy ht he hs hx hy hsx hsy]
  constructor
  · rw [List.length_append, fillRows_length, List.length_take, List.length_drop,
      List.length_replicate]
    omega
  · intro r hr
    rcases List.mem_append.mp hr with h | h
    · have hmem := List.mem_of_mem_take h
      rw [List.eq_of_mem_replicate hmem]
      exact List.length_replicate _ _
    · refine fillRows_mem_length xLen _ _ _ (fun r2 hr2 => ?_) r h
      have hmem := List.mem_of_mem_drop hr2
      rw [List.eq_of_mem_replicate hmem]
      exact List.length_replicate _ _

theorem get_np_array_empty_stream (pd : ParsedData) (xLen yLen sx sy : Nat)
    (ht : pd.has_tuple_list = true) (he : pd.has_grid_envelope = true)
    (hs : pd.has_start_point = true)
    (hx : pd.grid_high_x - pd.grid_low_x + 1 = (xLen : Int))
    (hy : pd.grid_high_y - pd.grid_low_y + 1 = (yLen : Int))
    (hsx : pd.start_x = (sx : ℚ)) (hsy : pd.start_y = (sy : ℚ))
    (hnil : pd.elevation_list = []) :
    Dem.get_np_array pd = List.replicate yLen (List.replicate xLen sentinel) := by
  rw [get_np_array_eq pd xLen yLen sx sy ht he hs hx hy hsx hsy, hnil,
    fillRows_samples_nil, List.take_append_drop]

/-- C1.  For a parsed mesh whose tuple list, grid envelope and start point are
present, `Dem::get_np_array` returns a grid of `y_length` rows of `x_length`
cells; every cell holds the value demanded by the spec's placement rule
(sentinel before the start point, first filled row starting at column
`start_x`, later rows at column 0, one sample per cell until the stream runs
out, sentinel afterwards); and an empty sample stream yields the all-sentinel
grid of the declared dimensions. -/
theorem grid_builder_places_samples_c1 (pd : ParsedData) (xLen yLen sx sy : Nat)
    (ht : pd.has_tuple_list = true) (he : pd.has_grid_envelope = true)
    (hs : pd.has_start_point = true)
    (hx : pd.grid_high_x - pd.grid_low_x + 1 = (xLen : Int))
    (hy : pd.grid_high_y - pd.grid_low_y + 1 = (yLen : Int))
    (hsx : pd.start_x = (sx : ℚ)) (hsy : pd.start_y = (sy : ℚ))
    (y x : Nat) (hylt : y < yLen) (hxlt : x < xLen) :
    (Dem.get_np_array pd).length = yLen ∧
    (∀ r ∈ Dem.get_np_array pd, r.length = xLen) ∧
    ((Dem.get_np_array pd).getD y []).getD x sentinel =
      specGridCell xLen sx sy pd.elevation_list y x ∧
    (pd.elevation_list = [] →
      Dem.get_np_array pd = List.replicate yLen (List.replicate xLen sentinel)) := by
  refine ⟨(get_np_array_length pd xLen yLen sx sy ht he hs hx hy hsx hsy).1,
    (get_np_array_length pd xLen yLen sx sy ht he hs hx hy hsx hsy).2,
    get_np_array_getD pd xLen yLen sx sy ht he hs hx hy hsx hsy y x hylt hxlt,
    fun hnil => get_np_array_empty_stream pd xLen yLen sx sy ht he hs hx hy hsx hsy hnil⟩

/-- Witness for C1 on the concrete mesh `c1pd` at cell (1, 0). -/
theorem grid_builder_places_samples_c1_witness :
    (Dem.get_np_array c1pd).length = 2 ∧
    (∀ r ∈ Dem.get_np_array c1pd, r.length = 2) ∧
    ((Dem.get_np_array c1pd).getD 1 []).getD 0 sentinel =
      specGridCell 2 1 0 c1pd.elevation_list 1 0 ∧
    (c1pd.elevation_list = [] →
      Dem.get_np_array c1pd = List.replicate 2 (List.replicate 2 sentinel)) :=
  grid_builder_places_samples_c1 c1pd 2 2 1 0 rfl rfl rfl (by decide) (by decide)
    (by decide) (by decide) 1 0 (by decide) (by decide)

/-- C10.  A parsed mesh document lacking its tuple list, its grid envelope or
its start point makes `Dem::get_np_array` return the empty array, while a
document whose sample stream is present but empty yields the all-sentinel
grid of the declared dimensions. -/
theorem grid_builder_missing_fields_c10 :
    (∀ pd : ParsedData,
      pd.has_tuple_list = false ∨ pd.has_grid_envelope = false ∨
        pd.has_start_point = false →
      Dem.get_np_array pd = []) ∧
    (∀ (pd : ParsedData) (xLen yLen sx sy : Nat),
      pd.has_tuple_list = true → pd.has_grid_envelope = true →
      pd.has_start_point = true →
      pd.grid_high_x - pd.grid_low_x + 1 = (xLen : Int) →
      pd.grid_high_y - pd.grid_low_y + 1 = (yLen : Int) →
      pd.start_x = (sx : ℚ) → pd.start_y = (sy : ℚ) →
      pd.elevation_list = [] →
      Dem.get_np_array pd = List.replicate yLen (List.replicate xLen sentinel)) := by
  constructor
  · intro pd h
    rcases h with h | h | h
    · simp [Dem.get_np_array, XmlParser.get_tuple_list, h]
    · cases htl : pd.has_tuple_list
      · simp [Dem.get_np_array, XmlParser.get_tuple_list, htl]
      · cases hsp : XmlParser.get_start_point pd <;>
          simp [Dem.get_np_array, XmlParser.get_tuple_list,
            XmlParser.get_grid_envelope, htl, h, hsp]
    · cases htl : pd.has_tuple_list
      · simp [Dem.get_np_array, XmlParser.get_tuple_list, htl]
      · cases hge : XmlParser.get_grid_envelope pd <;>
          simp [Dem.get_np_array, XmlParser.get_tuple_list,
            XmlParser.get_start_point, htl, h, hge]
  · intro pd xLen yLen sx sy ht he hs hx hy hsx hsy hnil
    exact get_np_array_empty_stream pd xLen yLen sx sy ht he hs hx hy hsx hsy hnil

/-- Witness for C10: the all-default document lacks everything and yields the
empty array; `c10pd` has an empty sample stream and yields the 2 x 2
all-sentinel grid. -/
theorem grid_builder_missing_fields_c10_witness :
    Dem.get_np_array {} = [] ∧
    Dem.get_np_array c10pd = List.replicate 2 (List.replicate 2 sentinel) :=
  ⟨grid_builder_missing_fields_c10.1 {} (Or.inl rfl),
    grid_builder_missing_fields_c10.2 c10pd 2 2 0 0 rfl rfl rfl (by decide) (by decide)
      (by decide) (by decide) rfl⟩

/-- C2.  With sea-level normalization enabled, a tuple-list record whose
parsed value is at most `-9999.0` and whose survey-type is one of the two
fixed sea tags emits exactly `0.0`; the same value with a non-sea tag emits
the raw value unchanged; a record whose numeric part fails to parse emits the
sentinel `-9999.0`; and the record loop emits one value per record, so a
failed record never aborts the parse. -/
theorem tuple_record_emission_c2 (type : List Char) (value : ℚ)
    (records : List (List Char × Option ℚ)) :
    (value ≤ -9999 → is_sea_type type = true →
      emit_tuple_value true type (some value) = 0) ∧
    (is_sea_type type = false →
      emit_tuple_value true type (some value) = value) ∧
    emit_tuple_value true type none = -9999 ∧
    (parse_records true records).length = records.length := by
  refine ⟨fun hv hsea => ?_, fun hsea => ?_, rfl, List.length_map _ _⟩
  · rw [emit_tuple_value, if_pos]
    rw [hsea, decide_eq_true hv]
    rfl
  · rw [emit_tuple_value, if_neg]
    rw [hsea, Bool.and_false]
    exact Bool.false_ne_true

/-- Witness for C2 on the records of the spec's scenario: a sea-surface
record at the sentinel value, a non-sea record at the sentinel value, and an
unparsable record. -/
theorem tuple_record_emission_c2_witness :
    emit_tuple_value true "海水面".data (some (-9999)) = 0 ∧
    emit_tuple_value true "その他".data (some (-9999)) = -9999 ∧
    emit_tuple_value true "地表面".data none = -9999 :=
  ⟨(tuple_record_emission_c2 "海水面".data (-9999) []).1 (le_refl _) (by decide),
    (tuple_record_emission_c2 "その他".data (-9999) []).2.1 (by decide),
    (tuple_record_emission_c2 "地表面".data (-9999) []).2.2.1⟩

/-- Counterexample to C3 as stated: on the one-mesh batch `[c3m0]` the row
pitch `pixel_size_y = (lower_lat − upper_lat)/y_length = -1/2` is negative,
so the claimed formula `round(|max_lat − min_lat| / pixel_size_y)` gives
`-2`, while the code rounds the absolute value of the whole quotient and
gives `2`. -/
theorem canvas_size_claim_false_c3 :
    claimImageSize [c3m0] c3bounds = (2, -2) ∧
    calc_image_size [c3m0] c3bounds = (2, 2) ∧
    claimImageSize [c3m0] c3bounds ≠ calc_image_size [c3m0] c3bounds := by
  have h1 : claimImageSize [c3m0] c3bounds = (2, -2) := by
    norm_num [claimImageSize, cround, c3m0, c3bounds]
  have h2 : calc_image_size [c3m0] c3bounds = (2, 2) := by
    norm_num [calc_image_size, cround, c3m0, c3bounds]
  refine ⟨h1, h2, ?_⟩
  rw [h1, h2]
  decide

/-- C3 amended.  For a non-empty batch, the pixel sizes are derived solely
from mesh 0 (`pixel_size_x = (upper_lon − lower_lon)/x_length`,
`pixel_size_y = (lower_lat − upper_lat)/y_length`) and the canvas dimensions
are `total = round(|span / pixel_size|)` — the absolute value of the whole
quotient — over the global bounds; the mosaic canvas starts with every cell
at `-9999.0`. -/
theorem canvas_size_amended_c3 (m0 : Metadata) (rest : List Metadata)
    (bounds : BoundsLatLng) (tx ty : Int) (r c : Nat) :
    calc_image_size (m0 :: rest) bounds =
      (cround |(bounds.max_lng - bounds.min_lng) /
          ((m0.upper_corner_y - m0.lower_corner_y) / (m0.x_length : ℚ))|,
        cround |(bounds.max_lat - bounds.min_lat) /
          ((m0.lower_corner_x - m0.upper_corner_x) / (m0.y_length : ℚ))|) ∧
    (combine_meta_data_and_contents (m0 :: rest) [] bounds).1 =
      init_canvas (calc_image_size (m0 :: rest) bounds).1
        (calc_image_size (m0 :: rest) bounds).2 ∧
    ((init_canvas tx ty).getD r []).getD c sentinel = sentinel := by
  refine ⟨rfl, rfl, ?_⟩
  rw [init_canvas]
  simp only [List.getD_eq_getElem?_getD, List.getElem?_replicate]
  split
  · simp only [Option.getD_some, List.getElem?_replicate]
    split
    · rfl
    · rfl
  · rfl

theorem clip_row_copy_safe_bounds (column_start x_len total_x row_len : Int) :
    0 < (clip_row_copy column_start x_len total_x row_len).copy_len →
    0 ≤ (clip_row_copy column_start x_len total_x row_len).dst_start ∧
    (clip_row_copy column_start x_len total_x row_len).dst_start +
      (clip_row_copy column_start x_len total_x row_len).copy_len ≤ total_x ∧
    0 ≤ (clip_row_copy column_start x_len total_x row_len).src_start ∧
    (clip_row_copy column_start x_len total_x row_len).src_start +
      (clip_row_copy column_start x_len total_x row_len).copy_len ≤ row_len := by
  simp only [clip_row_copy]
  split_ifs <;> (intro h; exact ⟨by omega, by omega, by omega, by omega⟩)

theorem apply_row_copy_nonpos (dst src : List ℚ) (p : RowCopyPlan)
    (h : p.copy_len ≤ 0) : apply_row_copy dst src p = dst := by
  rw [apply_row_copy, if_neg (by omega)]

theorem place_mesh_step_high_rows (np : List (List ℚ))
    (row_start column_start x_len total_x total_y : Int) (acc : List (List ℚ))
    (y : Nat) (i : Nat) (hi : total_y ≤ (i : Int)) :
    (place_mesh_step np row_start column_start x_len total_x total_y acc y)[i]? =
      acc[i]? := by
  simp only [place_mesh_step]
  split
  · rfl
  · rename_i hguard
    push_neg at hguard
    exact List.getElem?_set_ne (by omega)

theorem foldl_place_high_rows (np : List (List ℚ))
    (row_start column_start x_len total_x total_y : Int) :
    ∀ (ys : List Nat) (canvas : List (List ℚ)) (i : Nat), total_y ≤ (i : Int) →
      (ys.foldl (place_mesh_step np row_start column_start x_len total_x total_y)
        canvas)[i]? = canvas[i]? := by
  intro ys
  induction ys with
  | nil => intro canvas i hi; rfl
  | cons y ys ih =>
    intro canvas i hi
    rw [List.foldl_cons, ih _ i hi,
      place_mesh_step_high_rows np row_start column_start x_len total_x total_y _ y i hi]

/-- C9.  Safety of the assembler's placement loop: whenever a clipped row
copy has positive length, its destination window lies inside `[0, total_x)`
and its source window inside the source row; a non-positive clipped length
performs no write at all; and no destination row at an index at or beyond
`total_y` is ever modified (together with the clip bounds this keeps every
write inside `[0, total_y) x [0, total_x)`). -/
theorem assembler_row_copy_safety_c9 (column_start x_len total_x row_len : Int) :
    (0 < (clip_row_copy column_start x_len total_x row_len).copy_len →
      0 ≤ (clip_row_copy column_start x_len total_x row_len).dst_start ∧
      (clip_row_copy column_start x_len total_x row_len).dst_start +
        (clip_row_copy column_start x_len total_x row_len).copy_len ≤ total_x ∧
      0 ≤ (clip_row_copy column_start x_len total_x row_len).src_start ∧
      (clip_row_copy column_start x_len total_x row_len).src_start +
        (clip_row_copy column_start x_len total_x row_len).copy_len ≤ row_len) ∧
    (∀ (dst src : List ℚ) (p : RowCopyPlan), p.copy_len ≤ 0 →
      apply_row_copy dst src p = dst) ∧
    (∀ (canvas np : List (List ℚ)) (row_start y_len total_y : Int) (i : Nat),
      total_y ≤ (i : Int) →
      (place_mesh_rows canvas np row_start column_start x_len y_len total_x
        total_y)[i]? = canvas[i]?) :=
  ⟨clip_row_copy_safe_bounds column_start x_len total_x row_len,
    fun dst src p h => apply_row_copy_nonpos dst src p h,
    fun canvas np row_start _ total_y i hi =>
      foldl_place_high_rows np row_start column_start x_len total_x total_y _ canvas i hi⟩

/-- Witness for C9: a mesh row of width 3 placed at column -1 on a canvas of
width 2 is clipped to a one-in-bounds plan, and a zero-length plan writes
nothing. -/
theorem assembler_row_copy_safety_c9_witness :
    (0 ≤ (clip_row_copy (-1) 3 2 3).dst_start ∧
      (clip_row_copy (-1) 3 2 3).dst_start + (clip_row_copy (-1) 3 2 3).copy_len ≤ 2 ∧
      0 ≤ (clip_row_copy (-1) 3 2 3).src_start ∧
      (clip_row_copy (-1) 3 2 3).src_start + (clip_row_copy (-1) 3 2 3).copy_len ≤ 3) ∧
    apply_row_copy [5] [7] ⟨0, 0, 0⟩ = [5] :=
  ⟨(assembler_row_copy_safety_c9 (-1) 3 2 3).1 (by decide),
    (assembler_row_copy_safety_c9 (-1) 3 2 3).2.1 [5] [7] ⟨0, 0, 0⟩ (by decide)⟩

theorem foldl_set_length (f : Nat → ℚ) (d : Nat) : ∀ (l : List Nat) (dst : List ℚ),
    (l.foldl (fun acc k => acc.set (d + k) (f k)) dst).length = dst.length := by
  intro l
  induction l with
  | nil => intro dst; rfl
  | cons a l ih => intro dst; rw [List.foldl_cons, ih, List.length_set]

theorem foldl_set_range_getElem? (f : Nat → ℚ) (d : Nat) :
    ∀ (n : Nat) (dst : List ℚ) (j : Nat), j < n →
      ((List.range n).foldl (fun acc k => acc.set (d + k) (f k)) dst)[d + j]? =
        if d + j < dst.length then some (f j) else none := by
  intro n
  induction n with
  | zero => intro dst j hj; omega
  | succ n ih =>
    intro dst j hj
    rw [List.range_succ, List.foldl_append, List.foldl_cons, List.foldl_nil]
    have hlen : ((List.range n).foldl (fun acc k => acc.set (d + k) (f k)) dst).length =
        dst.length := foldl_set_length f d _ dst
    by_cases hjn : j = n
    · subst hjn
      by_cases hin : d + j < dst.length
      · rw [List.getElem?_set_self (by rw [hlen]; omega), if_pos hin]
      · rw [if_neg hin, List.getElem?_eq_none (by rw [List.length_set, hlen]; omega)]
    · rw [List.getElem?_set_ne (by omega)]
      exact ih dst j (by omega)

theorem apply_row_copy_writes (dst src : List ℚ) (p : RowCopyPlan) (j : Nat)
    (hp : 0 < p.copy_len) (hj : j < p.copy_len.toNat) :
    (apply_row_copy dst src p)[p.dst_start.toNat + j]? =
      if p.dst_start.toNat + j < dst.length then
        some (src.getD (p.src_start.toNat + j) 0)
      else none := by
  rw [apply_row_copy, if_pos hp]
  exact foldl_set_range_getElem? (fun k => src.getD (p.src_start.toNat + k) 0)
    p.dst_start.toNat p.copy_len.toNat dst j hj

/-- C4.  Merge overwrite policy: a later file's pixel that equals the
source's declared no-data value never overwrites the canvas; a pixel that
differs from it (and lands inside the canvas) replaces the canvas cell; and,
in contrast, the mosaic assembler's row copy writes the source cell
unconditionally — whatever its value — over the destination window. -/
theorem merge_overwrite_policy_c4 (out_data : List ℚ) (out_width out_height : Int)
    (src_nodata value : ℚ) (dst_row dst_col : Int) :
    (value = src_nodata →
      merge_write_pixel out_data out_width out_height true src_nodata value dst_row dst_col
        = out_data) ∧
    (0 ≤ dst_row → dst_row < out_height → 0 ≤ dst_col → dst_col < out_width →
      value ≠ src_nodata →
      merge_write_pixel out_data out_width out_height true src_nodata value dst_row dst_col
        = out_data.set (dst_row * out_width + dst_col).toNat value) ∧
    (∀ (dst src : List ℚ) (p : RowCopyPlan) (j : Nat), 0 < p.copy_len →
      j < p.copy_len.toNat →
      (apply_row_copy dst src p)[p.dst_start.toNat + j]? =
        if p.dst_start.toNat + j < dst.length then
          some (src.getD (p.src_start.toNat + j) 0)
        else none) := by
  refine ⟨fun hv => ?_, fun h1 h2 h3 h4 hv => ?_,
    fun dst src p j hp hj => apply_row_copy_writes dst src p j hp hj⟩
  · rw [merge_write_pixel]
    split
    · rw [if_neg]
      rw [hv]
      simp
    · rfl
  · rw [merge_write_pixel, if_pos ⟨h1, h2, h3, h4⟩, if_pos]
    simp [hv]

/-- Witness for C4: a no-data pixel (-9999) leaves the canvas row [1, 2]
unchanged, while a real value 7 overwrites cell 1. -/
theorem merge_overwrite_policy_c4_witness :
    merge_write_pixel [1, 2] 2 1 true (-9999) (-9999) 0 1 = [1, 2] ∧
    merge_write_pixel [1, 2] 2 1 true (-9999) 7 0 1 =
      List.set [1, 2] (((0 : Int) * 2 + 1).toNat) 7 :=
  ⟨(merge_overwrite_policy_c4 [1, 2] 2 1 (-9999) (-9999) 0 1).1 rfl,
    (merge_overwrite_policy_c4 [1, 2] 2 1 (-9999) 7 0 1).2.1 (by decide) (by decide)
      (by decide) (by decide) (by decide)⟩

/-- C5.  Every destination pixel of the reprojection loop is computed by
`resample_pixel`; a pixel becomes the bilinear blend of the four nearest
source samples exactly when the 2 x 2 neighborhood lies inside the source
raster and (when a no-data value is declared) none of the four samples
equals the no-data value; in every other case the pixel keeps the
no-data-filled default — the loop never extrapolates and never blends across
a no-data boundary. -/
theorem reprojection_bilinear_c5 (inv : ℚ × ℚ → ℚ × ℚ) (src : GeoTiffData)
    (dmx dmy dpw dph : ℚ) (dst_width dst_height : Int)
    (r c : Nat) (hr : r < dst_height.toNat) (hc : c < dst_width.toNat) :
    (resampling_data inv src dmx dmy dpw dph dst_width
        dst_height)[r * dst_width.toNat + c]? =
      some (resample_pixel inv src dmx dmy dpw dph (r : Int) (c : Int)) ∧
    (∀ dst_row dst_col : Int,
      (0 ≤ ⌊src_col_f inv src dmx dmy dpw dph dst_row dst_col⌋ ∧
        ⌊src_col_f inv src dmx dmy dpw dph dst_row dst_col⌋ + 1 < src.width ∧
        0 ≤ ⌊src_row_f inv src dmx dmy dpw dph dst_row dst_col⌋ ∧
        ⌊src_row_f inv src dmx dmy dpw dph dst_row dst_col⌋ + 1 < src.height) →
      ¬(src.has_nodata = true ∧
        (pix src ⌊src_row_f inv src dmx dmy dpw dph dst_row dst_col⌋
            ⌊src_col_f inv src dmx dmy dpw dph dst_row dst_col⌋ = src.nodata_value ∨
          pix src ⌊src_row_f inv src dmx dmy dpw dph dst_row dst_col⌋
            (⌊src_col_f inv src dmx dmy dpw dph dst_row dst_col⌋ + 1) = src.nodata_value ∨
          pix src (⌊src_row_f inv src dmx dmy dpw dph dst_row dst_col⌋ + 1)
            ⌊src_col_f inv src dmx dmy dpw dph dst_row dst_col⌋ = src.nodata_value ∨
          pix src (⌊src_row_f inv src dmx dmy dpw dph dst_row dst_col⌋ + 1)
            (⌊src_col_f inv src dmx dmy dpw dph dst_row dst_col⌋ + 1) =
              src.nodata_value)) →
      resample_pixel inv src dmx dmy dpw dph dst_row dst_col =
        bilinear
          (src_col_f inv src dmx dmy dpw dph dst_row dst_col -
            (⌊src_col_f inv src dmx dmy dpw dph dst_row dst_col⌋ : ℚ))
          (src_row_f inv src dmx dmy dpw dph dst_row dst_col -
            (⌊src_row_f inv src dmx dmy dpw dph dst_row dst_col⌋ : ℚ))
          (pix src ⌊src_row_f inv src dmx dmy dpw dph dst_row dst_col⌋
            ⌊src_col_f inv src dmx dmy dpw dph dst_row dst_col⌋)
          (pix src ⌊src_row_f inv src dmx dmy dpw dph dst_row dst_col⌋
            (⌊src_col_f inv src dmx dmy dpw dph dst_row dst_col⌋ + 1))
          (pix src (⌊src_row_f inv src dmx dmy dpw dph dst_row dst_col⌋ + 1)
            ⌊src_col_f inv src dmx dmy dpw dph dst_row dst_col⌋)
          (pix src (⌊src_row_f inv src dmx dmy dpw dph dst_row dst_col⌋ + 1)
            (⌊src_col_f inv src dmx dmy dpw dph dst_row dst_col⌋ + 1))) ∧
    (∀ dst_row dst_col : Int,
      (¬(0 ≤ ⌊src_col_f inv src dmx dmy dpw dph dst_row dst_col⌋ ∧
          ⌊src_col_f inv src dmx dmy dpw dph dst_row dst_col⌋ + 1 < src.width ∧
          0 ≤ ⌊src_row_f inv src dmx dmy dpw dph dst_row dst_col⌋ ∧
          ⌊src_row_f inv src dmx dmy dpw dph dst_row dst_col⌋ + 1 < src.height) ∨
        (src.has_nodata = true ∧
          (pix src ⌊src_row_f inv src dmx dmy dpw dph dst_row dst_col⌋
              ⌊src_col_f inv src dmx dmy dpw dph dst_row dst_col⌋ = src.nodata_value ∨
            pix src ⌊src_row_f inv src dmx dmy dpw dph dst_row dst_col⌋
              (⌊src_col_f inv src dmx dmy dpw dph dst_row dst_col⌋ + 1) =
                src.nodata_value ∨
            pix src (⌊src_row_f inv src dmx dmy dpw dph dst_row dst_col⌋ + 1)
              ⌊src_col_f inv src dmx dmy dpw dph dst_row dst_col⌋ = src.nodata_value ∨
            pix src (⌊src_row_f inv src dmx dmy dpw dph dst_row dst_col⌋ + 1)
              (⌊src_col_f inv src dmx dmy dpw dph dst_row dst_col⌋ + 1) =
                src.nodata_value))) →
      resample_pixel inv src dmx dmy dpw dph dst_row dst_col = src.nodata_value) := by
  refine ⟨?_, fun dst_row dst_col hin hnd => ?_, fun dst_row dst_col hout => ?_⟩
  · have hidx : r * dst_width.toNat + c < dst_height.toNat * dst_width.toNat := by
      calc r * dst_width.toNat + c < r * dst_width.toNat + dst_width.toNat := by omega
        _ = (r + 1) * dst_width.toNat := by ring
        _ ≤ dst_height.toNat * dst_width.toNat := Nat.mul_le_mul_right _ hr
    rw [resampling_data, List.getElem?_map, List.getElem?_range hidx]
    simp only [Option.map_some']
    have hdiv : (r * dst_width.toNat + c) / dst_width.toNat = r := by
      rw [Nat.add_comm, Nat.mul_comm r dst_width.toNat,
        Nat.add_mul_div_left _ _ (by omega : 0 < dst_width.toNat),
        Nat.div_eq_of_lt hc, Nat.zero_add]
    have hmod : (r * dst_width.toNat + c) % dst_width.toNat = c := by
      rw [Nat.add_comm, Nat.add_mul_mod_self_right, Nat.mod_eq_of_lt hc]
    rw [hdiv, hmod]
  · simp only [resample_pixel]
    rw [if_pos hin, if_neg hnd]
  · simp only [resample_pixel]
    by_cases hin : 0 ≤ ⌊src_col_f inv src dmx dmy dpw dph dst_row dst_col⌋ ∧
        ⌊src_col_f inv src dmx dmy dpw dph dst_row dst_col⌋ + 1 < src.width ∧
        0 ≤ ⌊src_row_f inv src dmx dmy dpw dph dst_row dst_col⌋ ∧
        ⌊src_row_f inv src dmx dmy dpw dph dst_row dst_col⌋ + 1 < src.height
    · rw [if_pos hin]
      rcases hout with hout | hout
      · exact absurd hin hout
      · rw [if_pos hout]
    · rw [if_neg hin]

/-- Witness for C5 at the only pixel of a 1 x 1 destination over `c5src`:
the 2 x 2 neighborhood is inside, no no-data is declared, and the pixel is
the bilinear blend (here 0). -/
theorem reprojection_bilinear_c5_witness :
    (resampling_data (fun p => p) c5src 0 0 1 1 1 1)[0]? =
      some (resample_pixel (fun p => p) c5src 0 0 1 1 0 0) ∧
    resample_pixel (fun p => p) c5src 0 0 1 1 0 0 = 0 := by
  have h := reprojection_bilinear_c5 (fun p => p) c5src 0 0 1 1 1 1 0 0
    (by decide) (by decide)
  have hc0 : src_col_f (fun p => p) c5src 0 0 1 1 0 0 = 0 := by
    simp [src_col_f, c5src]
  have hr0 : src_row_f (fun p => p) c5src 0 0 1 1 0 0 = 0 := by
    simp [src_row_f, c5src]
  refine ⟨h.1, ?_⟩
  have h2 := h.2.1 0 0 (by rw [hc0, hr0]; simp [c5src]) (by simp [c5src])
  rw [h2, hc0, hr0]
  simp [bilinear, pix, c5src]

/-- C6.  Atomicity of reprojection with respect to the original file: on
every failing outcome of `GeoTiff::resampling` the original file is left
untouched (the rewrite goes to a temporary file first), and only a fully
successful rewrite replaces the original with the new raster and removes the
temporary. -/
theorem resampling_atomic_replace_c6 (w : ResamplingWorld) (fs : FileState) :
    ((resampling_fs w fs).2 ≠ none → (resampling_fs w fs).1.original = fs.original) ∧
    ((resampling_fs w fs).2 = none → w.crs_equivalent = false →
      (resampling_fs w fs).1.original = some w.result ∧
      (resampling_fs w fs).1.temp = none) := by
  rw [resampling_fs]
  split_ifs <;> simp_all

/-- Witness for C6: a failed temporary write leaves the original `[1]` in
place; a fully successful rewrite replaces it with the new data `[7]`. -/
theorem resampling_atomic_replace_c6_witness :
    (resampling_fs ⟨true, true, true, false, true, true, false, [7]⟩
      ⟨some [1], none⟩).1.original = some [1] ∧
    (resampling_fs ⟨true, true, true, false, true, true, true, [7]⟩
      ⟨some [1], none⟩).1.original = some [7] :=
  ⟨(resampling_atomic_replace_c6 ⟨true, true, true, false, true, true, false, [7]⟩
      ⟨some [1], none⟩).1 (by decide),
    ((resampling_atomic_replace_c6 ⟨true, true, true, false, true, true, true, [7]⟩
      ⟨some [1], none⟩).2 rfl rfl).1⟩

/-- C8.  A target CRS string that PROJ rejects makes the whole reprojection
fail with an invalid-argument error before any work is committed, and an
accepted string of the simple "EPSG:CODE" shape has its numeric code
extracted for the output raster. -/
theorem epsg_extraction_c8 (w : ResamplingWorld) (fs : FileState)
    (rest : List Char) (n : Int) :
    (w.crs_create_ok = false → w.read_ok = true → w.ctx_ok = true →
      resampling_fs w fs = (fs, some ResampleErr.invalidArgument)) ∧
    (stoi rest = some n → extract_epsg ("EPSG:".data ++ rest) = some n) := by
  constructor
  · intro h1 h2 h3
    rw [resampling_fs, h1, h2, h3]
    rfl
  · intro h
    rw [extract_epsg, if_pos, List.drop_left' (by decide : ("EPSG:".data).length = 5)]
    · exact h
    · rw [List.take_left' (by decide : ("EPSG:".data).length = 5)]

/-- Witness for C8: with PROJ rejecting the CRS string the operation fails
as invalid-argument leaving the file state alone, and "EPSG:3857" yields
code 3857. -/
theorem epsg_extraction_c8_witness :
    resampling_fs ⟨true, true, false, false, true, true, true, []⟩ ⟨some [1], none⟩ =
      (⟨some [1], none⟩, some ResampleErr.invalidArgument) ∧
    extract_epsg ("EPSG:".data ++ "3857".data) = some 3857 :=
  ⟨(epsg_extraction_c8 ⟨true, true, false, false, true, true, true, []⟩
      ⟨some [1], none⟩ "3857".data 3857).1 rfl rfl rfl,
    (epsg_extraction_c8 ⟨true, true, false, false, true, true, true, []⟩
      ⟨some [1], none⟩ "3857".data 3857).2 (by decide)⟩

set_option maxHeartbeats 1000000 in
theorem scanTags_defaults (pf : List Char → Option (ℚ × Nat))
    (pint : List Char → Option (Int × Nat)) (sea : Bool) (s : List Char) :
    ∀ (fuel i : Nat) (d : ParsedData),
    ((scanTags pf pint sea s fuel i d).has_lower_corner = false →
      (scanTags pf pint sea s fuel i d).lower_corner_x = d.lower_corner_x ∧
      (scanTags pf pint sea s fuel i d).lower_corner_y = d.lower_corner_y ∧
      d.has_lower_corner = false) ∧
    ((scanTags pf pint sea s fuel i d).has_start_point = false →
      (scanTags pf pint sea s fuel i d).start_x = d.start_x ∧
      (scanTags pf pint sea s fuel i d).start_y = d.start_y ∧
      d.has_start_point = false) ∧
    ((scanTags pf pint sea s fuel i d).has_grid_envelope = false →
      (scanTags pf pint sea s fuel i d).grid_high_x = d.grid_high_x ∧
      (scanTags pf pint sea s fuel i d).grid_high_y = d.grid_high_y ∧
      d.has_grid_envelope = false) := by
  intro fuel
  induction fuel with
  | zero =>
    intro i d
    exact ⟨fun h => ⟨rfl, rfl, h⟩, fun h => ⟨rfl, rfl, h⟩, fun h => ⟨rfl, rfl, h⟩⟩
  | succ fuel ih =>
    intro i d
    simp only [scanTags]
    cases hj : findCharFrom s '<' i with
    | none =>
      exact ⟨fun h => ⟨rfl, rfl, h⟩, fun h => ⟨rfl, rfl, h⟩, fun h => ⟨rfl, rfl, h⟩⟩
    | some j =>
      simp only
      split_ifs <;>
        refine ⟨fun h => ?_, fun h => ?_, fun h => ?_⟩ <;>
        first
        | exact ⟨rfl, rfl, h⟩
        | exact Bool.noConfusion ((ih _ _).1 h).2.2
        | exact Bool.noConfusion ((ih _ _).2.1 h).2.2
        | exact Bool.noConfusion ((ih _ _).2.2 h).2.2
        | exact ⟨((ih _ _).1 h).1, ((ih _ _).1 h).2.1, ((ih _ _).1 h).2.2⟩
        | exact ⟨((ih _ _).2.1 h).1, ((ih _ _).2.1 h).2.1, ((ih _ _).2.1 h).2.2⟩
        | exact ⟨((ih _ _).2.2 h).1, ((ih _ _).2.2 h).2.1, ((ih _ _).2.2 h).2.2⟩

/-- C7.  `FastFGDParser::parse_all` returns a parsed result for every input
document and every behavior of the platform numeric parsers: the optional is
always engaged, so the failure branch of the wrapping `XmlParser`
constructor is unreachable; and a header field that was never seen keeps its
default value, its absence signaled only through the presence flag. -/
theorem parser_never_hard_fails_c7 (pf : List Char → Option (ℚ × Nat))
    (pint : List Char → Option (Int × Nat)) (sea : Bool) (s : List Char) :
    (parse_all pf pint sea s).isSome = true ∧
    (∃ d, xmlParserImpl pf pint s = Except.ok d) ∧
    (∀ d, parse_all pf pint sea s = some d →
      (d.has_lower_corner = false → d.lower_corner_x = 0 ∧ d.lower_corner_y = 0) ∧
      (d.has_start_point = false → d.start_x = 0 ∧ d.start_y = 0) ∧
      (d.has_grid_envelope = false → d.grid_high_x = 0 ∧ d.grid_high_y = 0)) := by
  refine ⟨rfl, ⟨_, rfl⟩, ?_⟩
  intro d hd
  rw [parse_all] at hd
  injection hd with hd
  subst hd
  have h := scanTags_defaults pf pint sea s (s.length + 1) 0 {}
  exact ⟨fun hf => ⟨(h.1 hf).1, (h.1 hf).2.1⟩,
    fun hf => ⟨(h.2.1 hf).1, (h.2.1 hf).2.1⟩,
    fun hf => ⟨(h.2.2 hf).1, (h.2.2 hf).2.1⟩⟩

/-- Witness for C7 on the empty document with always-failing numeric
parsers: the parse succeeds and yields the all-default record. -/
theorem parser_never_hard_fails_c7_witness :
    (parse_all (fun _ => none) (fun _ => none) true []).isSome = true ∧
    xmlParserImpl (fun _ => none) (fun _ => none) [] = Except.ok {} ∧
    ({} : ParsedData).lower_corner_x = 0 :=
  ⟨(parser_never_hard_fails_c7 (fun _ => none) (fun _ => none) true []).1, rfl,
    (((parser_never_hard_fails_c7 (fun _ => none) (fun _ => none) true []).2.2
      {} rfl).1 rfl).1⟩

end FgdConverter
